import Mathlib

/-!
Verification of the emergency-contacts backend (Django/DRF application).

The development shallowly embeds the validation, pagination, deletion and
error-translation logic of the repository:

  - backend/contacts/serializers.py  (ContactSerializer and its field
    validators, EventNotificationGroupsField)
  - backend/contacts/views.py        (delete flow of
    ContactRetrieveUpdateDestroyView)
  - backend/contacts/exceptions.py   (custom_exception_handler)
  - backend/contacts/pagination.py   (ContactPageNumberPagination)

Python strings are modelled as List Char restricted to the ASCII behaviour
that the application exercises; str.strip, str.lower, str.upper, str.isdigit
and the two fixed regular expressions of the serializer are translated
directly.  Where the surrounding framework (Django REST framework) supplies
the execution order -- per-field validation collecting errors, then the
cross-field validate hook only when no field failed; CharField blank and
trim_whitespace handling; ChoiceField membership tests; PageNumberPagination
page arithmetic -- that documented framework behaviour is embedded as the
composition of the repository code.  Two framework validators that can only
reject additional inputs (the Django EmailValidator that runs before
validate_email, and nothing else) are intentionally not modelled; every
theorem below is stated so that it remains sound under an extra rejector.
-/

abbrev PyStr := List Char

abbrev FieldErrs := List (PyStr × PyStr)

/-- Python str whitespace test restricted to the six ASCII whitespace
characters (space, tab, newline, carriage return, vertical tab, form feed). -/
def pyIsSpace (c : Char) : Bool :=
  c = ' ' || c = '\t' || c = '\n' || c = '\r' || c = Char.ofNat 11 || c = Char.ofNat 12

/-- Python str.strip(): remove leading and trailing whitespace. -/
def pyStrip (s : PyStr) : PyStr :=
  ((s.dropWhile pyIsSpace).reverse.dropWhile pyIsSpace).reverse

/-- Python str.lower() on ASCII letters. -/
def pyLower (s : PyStr) : PyStr := s.map Char.toLower

/-- Python str.upper() on ASCII letters. -/
def pyUpper (s : PyStr) : PyStr := s.map Char.toUpper

/-- Python str.isdigit() on ASCII: nonempty and all characters are digits. -/
def pyIsDigitStr (s : PyStr) : Bool := !s.isEmpty && s.all Char.isDigit

/-- Whether the first list starts with the second (Python str.startswith). -/
def listStartsWith : PyStr → PyStr → Bool
  | _, [] => true
  | [], _ :: _ => false
  | a :: as, b :: bs => a = b && listStartsWith as bs

/-- Python substring containment (needle in hay). -/
def containsSub (hay needle : PyStr) : Bool :=
  if listStartsWith hay needle then true
  else match hay with
    | [] => false
    | _ :: t => containsSub t needle

/-- Split a list at the first occurrence of a character, returning the parts
before and after it. -/
def splitAtFirst (c : Char) : PyStr → Option (PyStr × PyStr)
  | [] => none
  | x :: xs =>
      if x = c then some ([], xs)
      else (splitAtFirst c xs).map (fun p => (x :: p.1, p.2))

/-- Split a list at the last occurrence of a character. -/
def splitAtLast (c : Char) (s : PyStr) : Option (PyStr × PyStr) :=
  (splitAtFirst c s.reverse).map (fun p => (p.2.reverse, p.1.reverse))

/-- Characters allowed in the local part of the email regular expression of
ContactSerializer.validate_email. -/
def emailLocalChar (c : Char) : Bool :=
  c.isAlpha || c.isDigit || c = '.' || c = '_' || c = '%' || c = '+' || c = '-'

/-- Characters allowed in the domain part of the email regular expression. -/
def emailDomainChar (c : Char) : Bool :=
  c.isAlpha || c.isDigit || c = '.' || c = '-'

/-- Direct translation of the anchored regular expression used in
ContactSerializer.validate_email.  Since the local and domain character
classes both exclude the at sign, a match decomposes at the first at sign,
and since the final group of two or more letters excludes dots, the
separating dot of the pattern is necessarily the last dot of the domain
part. -/
def emailMatches (s : PyStr) : Bool :=
  match splitAtFirst '@' s with
  | none => false
  | some (loc, rest) =>
      !loc.isEmpty && loc.all emailLocalChar &&
      (match splitAtLast '.' rest with
       | none => false
       | some (pre, tld) =>
           !pre.isEmpty && pre.all emailDomainChar &&
           decide (2 ≤ tld.length) && tld.all Char.isAlpha)

/-- Character class of the name regular expression in
validate_first_name and validate_last_name: letters, regex whitespace,
hyphen, apostrophe. -/
def nameChar (c : Char) : Bool :=
  c.isAlpha || pyIsSpace c || c = '-' || c = Char.ofNat 39

/-- Character class the claim C5 ascribes to the name validators: ASCII
letters, the space character, hyphen, apostrophe.  Follows the wording of
the claim, to be compared with nameChar taken from the source. -/
def spec_nameChar (c : Char) : Bool :=
  c.isAlpha || c = ' ' || c = '-' || c = Char.ofNat 39

/-- ContactSerializer.validate_first_name, translated from the source. -/
def validate_first_name (value : PyStr) : Except PyStr PyStr :=
  if pyStrip value = [] then
    .error ( "First name cannot be empty or whitespace only.".data)
  else if (pyStrip value).all nameChar then .ok (pyStrip value)
  else .error ( "First name can only contain letters, spaces, hyphens, and apostrophes.".data)

/-- ContactSerializer.validate_last_name, translated from the source. -/
def validate_last_name (value : PyStr) : Except PyStr PyStr :=
  if pyStrip value = [] then
    .error ( "Last name cannot be empty or whitespace only.".data)
  else if (pyStrip value).all nameChar then .ok (pyStrip value)
  else .error ( "Last name can only contain letters, spaces, hyphens, and apostrophes.".data)

/-- ContactSerializer.validate_email, translated from the source: reject a
blank value, lower-case the stripped value, and test it against the fixed
email pattern. -/
def validate_email (value : PyStr) : Except PyStr PyStr :=
  if pyStrip value = [] then .error ( "Email cannot be empty.".data)
  else
    let email := pyLower (pyStrip value)
    if emailMatches email then .ok email
    else .error ( "Enter a valid email address.".data)

/-- ContactSerializer.validate_country_code, translated from the source. -/
def validate_country_code (value : PyStr) : Except PyStr PyStr :=
  if pyStrip value = [] then .ok []
  else
    let cc := pyStrip value
    if !listStartsWith cc ( "+".data) then
      .error ( "Country code must start with a plus sign (+).".data)
    else
      let digitsPart := cc.drop 1
      if !pyIsDigitStr digitsPart then
        .error ( "Country code can only contain a plus sign (+) followed by digits.".data)
      else if digitsPart.length < 1 || digitsPart.length > 4 then
        .error ( "Country code must contain 1 to 4 digits after the plus sign.".data)
      else .ok cc

/-- Formatting characters removed by validate_mobile_number: the regex
whitespace class, hyphen, parentheses, plus sign. -/
def mobileStripChar (c : Char) : Bool :=
  pyIsSpace c || c = '-' || c = '(' || c = ')' || c = '+'

/-- Characters claim C6 says are removed before the digit check: the space
character, hyphen, parentheses, plus sign.  Follows the wording of the
claim, to be compared with mobileStripChar taken from the source. -/
def spec_mobileStripChar (c : Char) : Bool :=
  c = ' ' || c = '-' || c = '(' || c = ')' || c = '+'

/-- ContactSerializer.validate_mobile_number, translated from the source. -/
def validate_mobile_number (value : PyStr) : Except PyStr PyStr :=
  if pyStrip value = [] then .ok []
  else
    let mobile := pyStrip value
    let cleaned := mobile.filter (fun c => !mobileStripChar c)
    if !pyIsDigitStr cleaned then
      .error ( "Mobile number can only contain digits, spaces, hyphens, parentheses, and plus sign.".data)
    else if cleaned.length < 10 || cleaned.length > 15 then
      .error ( "Mobile number must contain between 10 and 15 digits.".data)
    else .ok mobile

/-- A JSON-like input value as received by the serializer fields. -/
inductive JVal where
  | s (v : PyStr)
  | arr (vs : List JVal)
  | null
  | other

/-- The per-item loop of validate_event_types: each item must be a string,
nonempty after strip, and at most 50 characters after strip; the stripped
items are collected in order. -/
def validateEventItems : List JVal → Except PyStr (List PyStr)
  | [] => .ok []
  | JVal.s v :: rest =>
      let t := pyStrip v
      if t = [] then .error ( "Event types cannot be empty strings.".data)
      else if t.length > 50 then
        .error ( "Each event type cannot exceed 50 characters.".data)
      else (validateEventItems rest).map (fun ts => t :: ts)
  | _ :: _ => .error ( "Each event type must be a string.".data)

/-- The duplicate-removal loop of validate_event_types: keep the first
occurrence of each item, tracking already seen items. -/
def dedupAux (seen : List PyStr) : List PyStr → List PyStr
  | [] => []
  | t :: rest => if t ∈ seen then dedupAux seen rest else t :: dedupAux (t :: seen) rest

/-- ContactSerializer.validate_event_types, translated from the source. -/
def validate_event_types (value : JVal) : Except PyStr (List PyStr) :=
  match value with
  | JVal.arr xs =>
      if xs.isEmpty then .error ( "At least one event type is required.".data)
      else if xs.length > 20 then
        .error ( "Cannot specify more than 20 event types.".data)
      else (validateEventItems xs).map (dedupAux [])
  | _ => .error ( "Event types must be a list.".data)

/-- A single item acceptable to validate_event_types: a string, nonempty and
at most 50 characters after trimming (the wording of claim C4). -/
def goodItem : JVal → Bool
  | JVal.s v => !(pyStrip v).isEmpty && decide ((pyStrip v).length ≤ 50)
  | _ => false

/-- An event_types input acceptable per claim C4: a non-empty list of at
most 20 strings, each good.  Follows the wording of the claim, to be
compared with validate_event_types taken from the source. -/
def goodEventTypes : JVal → Bool
  | JVal.arr xs => !xs.isEmpty && decide (xs.length ≤ 20) && xs.all goodItem
  | _ => false

/-- The stripped string of a string item (used to state the output of
validate_event_types; non-string items never reach the output). -/
def stripOfItem : JVal → PyStr
  | JVal.s v => pyStrip v
  | _ => []

/-- Contact.STATUS_CHOICES keys. -/
def statusChoices : List PyStr := [( "ACTIVE".data), ( "INACTIVE".data)]

/-- Contact.EVENT_NOTIFICATION_TYPE_CHOICES keys. -/
def typeChoices : List PyStr := [( "ALL_USERS".data), ( "GROUPS".data)]

/-- ContactSerializer.validate_status, translated from the source. -/
def validate_status (value : PyStr) : Except PyStr PyStr :=
  if value ∈ statusChoices then .ok value
  else .error ( "Status must be one of: ACTIVE, INACTIVE".data)

/-- ContactSerializer.validate_event_notification_type, translated from the
source. -/
def validate_event_notification_type (value : PyStr) : Except PyStr PyStr :=
  if value ∈ typeChoices then .ok value
  else .error ( "Event notification type must be one of: ALL_USERS, GROUPS".data)

/-- The per-item loop of EventNotificationGroupsField.to_internal_value on
array input: each item must be a string with nonempty strip. -/
def groupsItems : List JVal → Except PyStr (List PyStr)
  | [] => .ok []
  | JVal.s v :: rest =>
      let t := pyStrip v
      if t = [] then .error ( "Group items cannot be empty strings.".data)
      else (groupsItems rest).map (fun ts => t :: ts)
  | _ :: _ => .error ( "All group items must be strings.".data)

/-- Python str.join with separator comma-space, as used by
EventNotificationGroupsField. -/
def joinCommaSpace : List PyStr → PyStr
  | [] => []
  | [x] => x
  | x :: rest => x ++ ( ", ".data) ++ joinCommaSpace rest

/-- EventNotificationGroupsField.to_internal_value, translated from the
source: None becomes the empty string, arrays are validated and joined with
comma-space, strings are stripped, anything else is rejected. -/
def groupsToInternal (v : JVal) : Except PyStr PyStr :=
  match v with
  | JVal.null => .ok []
  | JVal.arr [] => .ok []
  | JVal.arr xs => (groupsItems xs).map joinCommaSpace
  | JVal.s v => .ok (pyStrip v)
  | JVal.other => .error ( "Event notification groups must be a string or an array of strings.".data)

/-- The request body as the serializer sees it: each writable field is
either absent or carries a JSON value. -/
structure ReqData where
  email : Option JVal := none
  first_name : Option JVal := none
  last_name : Option JVal := none
  country_code : Option JVal := none
  mobile_number : Option JVal := none
  event_notification_groups : Option JVal := none
  event_notification_type : Option JVal := none
  event_types : Option JVal := none
  status : Option JVal := none

/-- The validated attribute dictionary produced by the per-field phase.
A field absent from the dictionary (skipped) is none.  For
event_notification_groups the inner option distinguishes an explicit null
(accepted because the field allows null) from a string value. -/
structure Attrs where
  email : Option PyStr := none
  first_name : Option PyStr := none
  last_name : Option PyStr := none
  country_code : Option PyStr := none
  mobile_number : Option PyStr := none
  event_notification_groups : Option (Option PyStr) := none
  event_notification_type : Option PyStr := none
  event_types : Option (List PyStr) := none
  status : Option PyStr := none
deriving DecidableEq

/-- DRF EmailField pipeline for the declared email field (required, blank
not allowed), followed by the serializer method validate_email.  The
framework trims the value before the custom validator; the additional
Django EmailValidator is not modelled and could only reject more inputs. -/
def runEmailField (isPatch : Bool) (v : Option JVal) : Except PyStr (Option PyStr) :=
  match v with
  | none => if isPatch then .ok none else .error ( "Email field is required.".data)
  | some JVal.null => .error ( "This field may not be null.".data)
  | some (JVal.s s) =>
      if pyStrip s = [] then .error ( "This field may not be blank.".data)
      else (validate_email (pyStrip s)).map some
  | some _ => .error ( "Enter a valid email address.".data)

/-- DRF CharField pipeline: requiredness, null rejection, blank handling
with trim_whitespace, maximum length on the trimmed value, then the custom
per-field serializer method. -/
def runCharField (isPatch required allowBlank : Bool) (maxLen : Nat)
    (reqMsg blankMsg maxMsg : PyStr) (vf : PyStr → Except PyStr PyStr)
    (v : Option JVal) : Except PyStr (Option PyStr) :=
  match v with
  | none =>
      if isPatch then .ok none
      else if required then .error reqMsg else .ok none
  | some JVal.null => .error ( "This field may not be null.".data)
  | some (JVal.s s) =>
      if pyStrip s = [] then
        (if allowBlank then (vf []).map some else .error blankMsg)
      else
        let t := pyStrip s
        if t.length > maxLen then .error maxMsg
        else (vf t).map some
  | some _ => .error ( "Not a valid string.".data)

/-- The declared first_name field of ContactSerializer. -/
def runFirstName (isPatch : Bool) : Option JVal → Except PyStr (Option PyStr) :=
  runCharField isPatch true false 50 ( "First name is required.".data)
    ( "First name cannot be blank.".data)
    ( "First name cannot exceed 50 characters.".data) validate_first_name

/-- The declared last_name field of ContactSerializer. -/
def runLastName (isPatch : Bool) : Option JVal → Except PyStr (Option PyStr) :=
  runCharField isPatch true false 50 ( "Last name is required.".data)
    ( "Last name cannot be blank.".data)
    ( "Last name cannot exceed 50 characters.".data) validate_last_name

/-- The declared country_code field of ContactSerializer (optional, blank
allowed, maximum length 5). -/
def runCountryCode (isPatch : Bool) : Option JVal → Except PyStr (Option PyStr) :=
  runCharField isPatch false true 5 [] []
    ( "Country code cannot exceed 5 characters.".data) validate_country_code

/-- The declared mobile_number field of ContactSerializer (optional, blank
allowed, maximum length 20). -/
def runMobile (isPatch : Bool) : Option JVal → Except PyStr (Option PyStr) :=
  runCharField isPatch false true 20 [] []
    ( "Mobile number cannot exceed 20 characters.".data) validate_mobile_number

/-- The declared event_notification_groups field (EventNotificationGroupsField,
optional, null allowed): an explicit null is accepted by the framework
before to_internal_value runs, so the attribute value records it as an
inner none. -/
def runGroupsField (_isPatch : Bool) (v : Option JVal) :
    Except PyStr (Option (Option PyStr)) :=
  match v with
  | none => .ok none
  | some JVal.null => .ok (some none)
  | some w => (groupsToInternal w).map (fun s => some (some s))

/-- DRF ChoiceField pipeline for the model-generated choice fields (not
required because the model supplies a default): exact membership of the
string in the choice keys, then the custom serializer method.  For
non-string input the string form of the value is never a choice key; the
concrete interpolated message is abstracted for that dead branch. -/
def runChoiceField (choices : List PyStr) (vf : PyStr → Except PyStr PyStr)
    (notChoiceMsg : PyStr) (v : Option JVal) : Except PyStr (Option PyStr) :=
  match v with
  | none => .ok none
  | some JVal.null => .error ( "This field may not be null.".data)
  | some (JVal.s s) =>
      if s ∈ choices then (vf s).map some
      else .error (( "\"".data) ++ s ++ ( "\" is not a valid choice.".data))
  | some _ => .error notChoiceMsg

/-- The model-generated event_notification_type field. -/
def runTypeField (_isPatch : Bool) : Option JVal → Except PyStr (Option PyStr) :=
  runChoiceField typeChoices validate_event_notification_type
    ( "Not a valid choice.".data)

/-- The model-generated status field. -/
def runStatusField (_isPatch : Bool) : Option JVal → Except PyStr (Option PyStr) :=
  runChoiceField statusChoices validate_status ( "Not a valid choice.".data)

/-- The model-generated event_types field (JSONField, required, null not
allowed), followed by validate_event_types. -/
def runEventTypesField (isPatch : Bool) (v : Option JVal) :
    Except PyStr (Option (List PyStr)) :=
  match v with
  | none => if isPatch then .ok none else .error ( "This field is required.".data)
  | some JVal.null => .error ( "This field may not be null.".data)
  | some w => (validate_event_types w).map some

/-- The field-error contribution of one field run: the failing field
contributes its name and message, a successful field contributes nothing. -/
def fieldRes {α : Type} (name : PyStr) : Except PyStr α → FieldErrs
  | .error e => [(name, e)]
  | .ok _ => []

/-- The validated value of a successful field run (junk on error; only used
when the run succeeded). -/
def okVal {α : Type} : Except PyStr (Option α) → Option α
  | .ok v => v
  | .error _ => none

/-- All field errors of a request, in serializer field order (declared
fields first, then the model-generated ones). -/
def fieldErrsOf (isPatch : Bool) (d : ReqData) : FieldErrs :=
  fieldRes ( "email".data) (runEmailField isPatch d.email) ++
  fieldRes ( "first_name".data) (runFirstName isPatch d.first_name) ++
  fieldRes ( "last_name".data) (runLastName isPatch d.last_name) ++
  fieldRes ( "country_code".data) (runCountryCode isPatch d.country_code) ++
  fieldRes ( "mobile_number".data) (runMobile isPatch d.mobile_number) ++
  fieldRes ( "event_notification_groups".data) (runGroupsField isPatch d.event_notification_groups) ++
  fieldRes ( "event_notification_type".data) (runTypeField isPatch d.event_notification_type) ++
  fieldRes ( "event_types".data) (runEventTypesField isPatch d.event_types) ++
  fieldRes ( "status".data) (runStatusField isPatch d.status)

/-- The attribute dictionary assembled from the successful field runs. -/
def attrsOf (isPatch : Bool) (d : ReqData) : Attrs where
  email := okVal (runEmailField isPatch d.email)
  first_name := okVal (runFirstName isPatch d.first_name)
  last_name := okVal (runLastName isPatch d.last_name)
  country_code := okVal (runCountryCode isPatch d.country_code)
  mobile_number := okVal (runMobile isPatch d.mobile_number)
  event_notification_groups := okVal (runGroupsField isPatch d.event_notification_groups)
  event_notification_type := okVal (runTypeField isPatch d.event_notification_type)
  event_types := okVal (runEventTypesField isPatch d.event_types)
  status := okVal (runStatusField isPatch d.status)

/-- The per-field phase of Serializer.to_internal_value: run every writable
field, collect all field errors, and fail with the whole collection if any
field failed. -/
def perFieldPhase (isPatch : Bool) (d : ReqData) : Except FieldErrs Attrs :=
  if (fieldErrsOf isPatch d).isEmpty then .ok (attrsOf isPatch d)
  else .error (fieldErrsOf isPatch d)

/-- The emptiness test the cross-field validate method applies to the
groups attribute: a missing key defaults to the empty string, an explicit
None is falsy, and a string counts as empty when falsy or
whitespace-only. -/
def groupsEmptyAttr : Option (Option PyStr) → Bool
  | none => true
  | some none => true
  | some (some s) => s.isEmpty || (pyStrip s).isEmpty

/-- ContactSerializer.validate, translated from the source: when the
validated attributes carry event_notification_type GROUPS and an empty
groups value, fail with the Required error keyed to
event_notification_groups. -/
def crossValidate (a : Attrs) : Except FieldErrs Attrs :=
  if a.event_notification_type = some ( "GROUPS".data) ∧
      groupsEmptyAttr a.event_notification_groups = true then
    .error [(( "event_notification_groups".data),
      ( "This field is required when event_notification_type is GROUPS.".data))]
  else .ok a

/-- Serializer.run_validation: the per-field phase, then the cross-field
validate hook, which runs only when no field produced an error. -/
def runSerializer (isPatch : Bool) (d : ReqData) : Except FieldErrs Attrs :=
  match perFieldPhase isPatch d with
  | .error e => .error e
  | .ok a => crossValidate a

/-- An input to the groups field that claim C1 calls empty: absent, null,
or a string that is empty or whitespace-only. -/
def groupsInputEmpty : Option JVal → Bool
  | none => true
  | some JVal.null => true
  | some (JVal.s s) => (pyStrip s).isEmpty
  | some _ => false

/-- A stored Contact row (the fields the serializer writes; id and the
timestamps are server-managed and not validated). -/
structure ContactRec where
  first_name : PyStr
  last_name : PyStr
  email : PyStr
  country_code : PyStr
  mobile_number : PyStr
  event_notification_type : PyStr
  event_notification_groups : Option PyStr
  event_types : List PyStr
  status : PyStr
deriving DecidableEq

/-- ModelSerializer.update for a partial update: set each supplied
validated attribute on the stored instance, leaving the rest unchanged. -/
def applyPatch (r : ContactRec) (a : Attrs) : ContactRec where
  first_name := a.first_name.getD r.first_name
  last_name := a.last_name.getD r.last_name
  email := a.email.getD r.email
  country_code := a.country_code.getD r.country_code
  mobile_number := a.mobile_number.getD r.mobile_number
  event_notification_type := a.event_notification_type.getD r.event_notification_type
  event_notification_groups :=
    match a.event_notification_groups with
    | none => r.event_notification_groups
    | some g => g
  event_types := a.event_types.getD r.event_types
  status := a.status.getD r.status

/-- Whether a stored record violates the GROUPS emptiness side of the
cross-field rule: its groups column is null, empty or whitespace-only. -/
def recGroupsEmpty (r : ContactRec) : Bool :=
  match r.event_notification_groups with
  | none => true
  | some s => s.isEmpty || (pyStrip s).isEmpty

/-- Lookup of a contact by primary key in the store. -/
def lookupContact (store : List (Nat × ContactRec)) (pk : Nat) : Option ContactRec :=
  match store with
  | [] => none
  | (i, r) :: rest => if i = pk then some r else lookupContact rest pk

/-- The decimal digits of a natural number (used in the interpolated 404
message of the view). -/
def natDigits (n : Nat) : PyStr := Nat.toDigits 10 n

/-- The message raised by ContactRetrieveUpdateDestroyView.get_object when
the primary key is absent from the store. -/
def notFoundMsg (pk : Nat) : PyStr :=
  ( "Contact with id ".data) ++ natDigits pk ++ ( " does not exist.".data)

/-- Outcome of the destroy handler. -/
inductive DestroyResult where
  | ok (message : PyStr)
  | notFound (message : PyStr)
deriving DecidableEq

/-- ContactRetrieveUpdateDestroyView.destroy: get_object raises the
descriptive 404 when the id is absent, otherwise the row is deleted and a
success message returned. -/
def destroyContact (store : List (Nat × ContactRec)) (pk : Nat) :
    DestroyResult × List (Nat × ContactRec) :=
  match lookupContact store pk with
  | none => (DestroyResult.notFound (notFoundMsg pk), store)
  | some _ =>
      (DestroyResult.ok ( "Contact deleted successfully.".data),
       store.filter (fun e => e.1 != pk))

/-- The status or event_notification_type filter of
ContactListCreateView.get_queryset: an absent or empty parameter applies no
filter, otherwise rows are matched against the upper-cased parameter. -/
def filterByStatus (param : Option PyStr) (rs : List ContactRec) : List ContactRec :=
  match param with
  | none => rs
  | some s => if s.isEmpty then rs
      else rs.filter (fun r => decide (r.status = pyUpper s))

/-- Same filter for the event_notification_type query parameter. -/
def filterByType (param : Option PyStr) (rs : List ContactRec) : List ContactRec :=
  match param with
  | none => rs
  | some s => if s.isEmpty then rs
      else rs.filter (fun r => decide (r.event_notification_type = pyUpper s))

/-- Python int() on a string: optional surrounding whitespace, optional
sign, then a nonempty run of digits. -/
def digitsVal (l : PyStr) : Option Nat :=
  if l.isEmpty || !l.all Char.isDigit then none
  else some (l.foldl (fun acc c => acc * 10 + (c.toNat - 48)) 0)

/-- Python int() conversion of a query-parameter string. -/
def pyParseInt (s : PyStr) : Option Int :=
  let t := pyStrip s
  match t with
  | [] => none
  | c :: rest =>
      if c = '+' then (digitsVal rest).map Int.ofNat
      else if c = '-' then (digitsVal rest).map (fun n => -(Int.ofNat n))
      else (digitsVal t).map Int.ofNat

/-- The _positive_int helper of DRF pagination with strict mode and a
cutoff: reject non-integers, negatives and zero, and cap at the cutoff. -/
def positiveIntStrictCutoff (s : PyStr) (cutoff : Nat) : Option Nat :=
  match pyParseInt s with
  | none => none
  | some n => if n ≤ 0 then none else some (min n.toNat cutoff)

/-- PageNumberPagination.get_page_size as configured by
ContactPageNumberPagination: page_size 10, page_size query parameter capped
at max_page_size 100, any parse failure falling back to the default. -/
def getPageSize (pageSizeParam : Option PyStr) : Nat :=
  match pageSizeParam with
  | none => 10
  | some s => (positiveIntStrictCutoff s 100).getD 10

/-- Django Paginator.num_pages: the ceiling of count over the page size,
and one page when the collection is empty. -/
def numPages (count size : Nat) : Nat :=
  if count = 0 then 1 else (count + size - 1) / size

/-- The page number resolved from the page query parameter: default 1, the
string last selects the final page, anything unparsable or out of range is
a NotFound. -/
def pageNumberOf (pageParam : Option PyStr) (npages : Nat) : Option Nat :=
  match pageParam with
  | none => some 1
  | some s =>
      if s = ( "last".data) then some npages
      else match pyParseInt s with
        | none => none
        | some n =>
            if n < 1 then none
            else if npages < n.toNat then none
            else some n.toNat

/-- The paginated response of ContactPageNumberPagination
.get_paginated_response; next and previous model the page links, which are
absent exactly when there is no next or previous page.  The page_size key
reports self.page_size, the class attribute: the framework resolves the
effective size into a local variable and never writes it back, so this key
is constantly 10 even when the caller overrides the size. -/
structure PageMeta (α : Type) where
  count : Nat
  next : Option Nat
  previous : Option Nat
  results : List α
  page : Nat
  total_pages : Nat
  page_size : Nat
deriving DecidableEq

/-- The full list-endpoint pagination: resolve the effective page size and
the page number, slice the records with the effective size, and assemble
the response metadata (whose page_size key is the constant class
attribute); none is the NotFound response for an invalid page. -/
def paginateList {α : Type} (rs : List α) (pageParam pageSizeParam : Option PyStr) :
    Option (PageMeta α) :=
  match pageNumberOf pageParam (numPages rs.length (getPageSize pageSizeParam)) with
  | none => none
  | some p =>
      some { count := rs.length
             next := if p < numPages rs.length (getPageSize pageSizeParam) then
                 some (p + 1)
               else none
             previous := if 1 < p then some (p - 1) else none
             results := (rs.drop ((p - 1) * getPageSize pageSizeParam)).take
               (getPageSize pageSizeParam)
             page := p
             total_pages := numPages rs.length (getPageSize pageSizeParam)
             page_size := 10 }

/-- A message value in a response body: a single string or a list of
strings. -/
inductive MsgVal where
  | s (v : PyStr)
  | lst (vs : List PyStr)
deriving DecidableEq

/-- The shapes of response data that reach the reformatting block of
custom_exception_handler: the envelope dicts built by the integrity and
Django-validation branches (which contain a detail key), the DRF detail
dict, a non_field_errors dict, a field-errors dict, list data, and
non-dict non-list data. -/
inductive RData where
  | envDict (message : MsgVal) (code : PyStr) (statusCode : Nat)
      (details : Option (List PyStr)) (detail : MsgVal)
  | detailDict (msg : PyStr)
  | nonFieldDict (msgs : List PyStr)
  | fieldsDict (pairs : FieldErrs)
  | listData (msgs : List PyStr)
  | strData (v : PyStr)
deriving DecidableEq

/-- The final error envelope produced by the handler. -/
structure Envelope where
  message : MsgVal
  code : PyStr
  statusCode : Nat
  details : Option RData
  detail : MsgVal
deriving DecidableEq

/-- The status-code-to-error-code map of custom_exception_handler. -/
def statusCodeMap (st : Nat) : PyStr :=
  if st = 400 then ( "bad_request".data)
  else if st = 401 then ( "unauthorized".data)
  else if st = 403 then ( "forbidden".data)
  else if st = 404 then ( "not_found".data)
  else if st = 405 then ( "method_not_allowed".data)
  else if st = 500 then ( "internal_server_error".data)
  else ( "api_error".data)

/-- The unconditional reformatting block at the end of
custom_exception_handler: rebuild the envelope from the response data,
derive the code from the status code, and duplicate the message into the
top-level detail field. -/
def reformat (st : Nat) (d : RData) : Envelope :=
  let mi : MsgVal × Option RData :=
    match d with
    | RData.envDict _ _ _ _ det => (det, none)
    | RData.detailDict m => (MsgVal.s m, none)
    | RData.nonFieldDict msgs => (MsgVal.lst msgs, some d)
    | RData.fieldsDict _ => (MsgVal.s ( "Validation failed".data), some d)
    | RData.listData msgs =>
        (match msgs with
         | [] => MsgVal.s ( "An error occurred".data)
         | m :: _ => MsgVal.s m, some d)
    | RData.strData v => (MsgVal.s v, none)
  { message := mi.1
    code := statusCodeMap st
    statusCode := st
    details := mi.2
    detail := mi.1 }

/-- The exceptions reaching custom_exception_handler: a database
IntegrityError carrying its message, a Django ValidationError carrying its
message list, a DRF API exception already turned into a response by the
default handler, or anything else (which the default handler leaves as
none). -/
inductive Exc where
  | integrity (msg : PyStr)
  | djangoValidation (msgs : List PyStr)
  | apiResp (statusCode : Nat) (data : RData)
  | unhandled

/-- The message rewriting of the IntegrityError branch. -/
def rewriteIntegrityMsg (msg : PyStr) : PyStr :=
  let low := pyLower msg
  if containsSub low ( "email".data) && containsSub low ( "unique".data) then
    ( "A contact with this email address already exists.".data)
  else if containsSub low ( "unique".data) then
    ( "A record with these values already exists.".data)
  else msg

/-- contacts.exceptions.custom_exception_handler, translated from the
source: the IntegrityError and Django ValidationError branches build their
envelopes (with codes integrity_error and validation_error), and every
non-none response then passes through the reformatting block, which
rebuilds the envelope and replaces the code with the status-derived one. -/
def custom_exception_handler (exc : Exc) : Option Envelope :=
  match exc with
  | Exc.integrity msg =>
      let m := rewriteIntegrityMsg msg
      some (reformat 400
        (RData.envDict (MsgVal.s m) ( "integrity_error".data) 400 none (MsgVal.s m)))
  | Exc.djangoValidation msgs =>
      some (reformat 400
        (RData.envDict (MsgVal.s ( "Validation failed".data))
          ( "validation_error".data) 400 (some msgs) (MsgVal.lst msgs)))
  | Exc.apiResp st d => some (reformat st d)
  | Exc.unhandled => none

/-- Create input with an invalid email together with a GROUPS notification
type and no groups value (input for claim C1). -/
def d0 : ReqData where
  email := some (JVal.s ( "not-an-email".data))
  first_name := some (JVal.s ( "Ann".data))
  last_name := some (JVal.s ( "Lee".data))
  event_notification_type := some (JVal.s ( "GROUPS".data))
  event_types := some (JVal.arr [JVal.s ( "SOS".data)])

/-- Create input whose fields are all individually valid, with a GROUPS
notification type and no groups value. -/
def dW : ReqData where
  email := some (JVal.s ( "Ana@X.com".data))
  first_name := some (JVal.s ( "Ann".data))
  last_name := some (JVal.s ( "Lee".data))
  event_notification_type := some (JVal.s ( "GROUPS".data))
  event_types := some (JVal.arr [JVal.s ( "SOS".data)])

/-- Fully valid create input without a notification type. -/
def dN : ReqData where
  email := some (JVal.s ( " Ana@X.com ".data))
  first_name := some (JVal.s ( "Ann".data))
  last_name := some (JVal.s ( "Lee".data))
  event_types := some (JVal.arr [JVal.s ( "SOS".data)])

/-- Create input with an invalid email and no notification type. -/
def dE : ReqData where
  email := some (JVal.s ( "not-an-email".data))
  first_name := some (JVal.s ( "Ann".data))
  last_name := some (JVal.s ( "Lee".data))
  event_types := some (JVal.arr [JVal.s ( "SOS".data)])

/-- A stored record with notification type GROUPS and a nonempty groups
value. -/
def r0 : ContactRec where
  first_name := ( "Ann".data)
  last_name := ( "Lee".data)
  email := ( "ann@x.com".data)
  country_code := []
  mobile_number := []
  event_notification_type := ( "GROUPS".data)
  event_notification_groups := some ( "team-a".data)
  event_types := [( "SOS".data)]
  status := ( "ACTIVE".data)

/-- Partial-update input supplying only an empty groups string. -/
def d1 : ReqData where
  event_notification_groups := some (JVal.s [])

/-- A sample stored record used by concrete witnesses. -/
def sampleRec : ContactRec where
  first_name := ( "Ana".data)
  last_name := ( "Roe".data)
  email := ( "ana@x.com".data)
  country_code := []
  mobile_number := []
  event_notification_type := ( "ALL_USERS".data)
  event_notification_groups := none
  event_types := [( "SOS".data)]
  status := ( "ACTIVE".data)

/-- The page metadata of the second page of three records at effective
page size two (the reported page_size key stays at the class constant). -/
def m9 : PageMeta Nat where
  count := 3
  next := none
  previous := some 1
  results := [2]
  page := 2
  total_pages := 2
  page_size := 10

/-- The page metadata of the single default page of three records. -/
def m9b : PageMeta Nat where
  count := 3
  next := none
  previous := none
  results := [0, 1, 2]
  page := 1
  total_pages := 1
  page_size := 10

theorem head_not_of_dropWhile_self {p : Char → Bool} {c : Char} {l : List Char}
    (h : List.dropWhile p (c :: l) = c :: l) : p c = false := by
  by_contra hc
  rw [Bool.not_eq_false] at hc
  rw [List.dropWhile_cons, if_pos hc] at h
  have hlen := congrArg List.length h
  have hle : (List.dropWhile p l).length ≤ l.length :=
    List.IsSuffix.length_le (List.dropWhile_suffix (l := l) p)
  simp only [List.length_cons] at hlen
  omega

theorem pyStrip_eq_rdrop (l : PyStr) :
    pyStrip l = List.rdropWhile pyIsSpace (List.dropWhile pyIsSpace l) := rfl

theorem pyStrip_idem (s : PyStr) : pyStrip (pyStrip s) = pyStrip s := by
  rw [pyStrip_eq_rdrop, pyStrip_eq_rdrop]
  have hApre : List.rdropWhile pyIsSpace (List.dropWhile pyIsSpace s) <+:
      List.dropWhile pyIsSpace s := List.rdropWhile_prefix _ _
  have hAself : List.dropWhile pyIsSpace (List.dropWhile pyIsSpace s) =
      List.dropWhile pyIsSpace s := List.dropWhile_idempotent _ _
  have hR : List.dropWhile pyIsSpace
      (List.rdropWhile pyIsSpace (List.dropWhile pyIsSpace s)) =
      List.rdropWhile pyIsSpace (List.dropWhile pyIsSpace s) := by
    cases hcase : List.rdropWhile pyIsSpace (List.dropWhile pyIsSpace s) with
    | nil => rfl
    | cons c t =>
        obtain ⟨r, hr⟩ := hApre
        rw [hcase] at hr
        have hr2 : List.dropWhile pyIsSpace (c :: (t ++ r)) = c :: (t ++ r) := by
          have : c :: (t ++ r) = List.dropWhile pyIsSpace s := by
            rw [← hr]; simp
          rw [this, hAself]
        have hc := head_not_of_dropWhile_self hr2
        rw [List.dropWhile_cons, if_neg (by simp [hc])]
  rw [hR, List.rdropWhile_idempotent]

theorem ok_of_fieldRes_nil {α : Type} {n : PyStr} {r : Except PyStr (Option α)}
    (h : fieldRes n r = []) : r = .ok (okVal r) := by
  cases r with
  | ok v => rfl
  | error e => simp [fieldRes] at h

theorem perFieldPhase_ok {b : Bool} {d : ReqData} {a : Attrs}
    (h : perFieldPhase b d = .ok a) :
    runEmailField b d.email = .ok a.email ∧
    runFirstName b d.first_name = .ok a.first_name ∧
    runLastName b d.last_name = .ok a.last_name ∧
    runCountryCode b d.country_code = .ok a.country_code ∧
    runMobile b d.mobile_number = .ok a.mobile_number ∧
    runGroupsField b d.event_notification_groups = .ok a.event_notification_groups ∧
    runTypeField b d.event_notification_type = .ok a.event_notification_type ∧
    runEventTypesField b d.event_types = .ok a.event_types ∧
    runStatusField b d.status = .ok a.status := by
  unfold perFieldPhase at h
  split at h
  case isFalse => exact absurd h (by simp)
  case isTrue hcond =>
    injection h with ha
    subst ha
    rw [List.isEmpty_iff] at hcond
    unfold fieldErrsOf at hcond
    simp only [List.append_eq_nil] at hcond
    obtain ⟨⟨⟨⟨⟨⟨⟨⟨h1, h2⟩, h3⟩, h4⟩, h5⟩, h6⟩, h7⟩, h8⟩, h9⟩ := hcond
    exact ⟨ok_of_fieldRes_nil h1, ok_of_fieldRes_nil h2, ok_of_fieldRes_nil h3,
      ok_of_fieldRes_nil h4, ok_of_fieldRes_nil h5, ok_of_fieldRes_nil h6,
      ok_of_fieldRes_nil h7, ok_of_fieldRes_nil h8, ok_of_fieldRes_nil h9⟩

theorem runSerializer_ok {b : Bool} {d : ReqData} {a : Attrs}
    (h : runSerializer b d = .ok a) : perFieldPhase b d = .ok a := by
  unfold runSerializer at h
  cases hp : perFieldPhase b d with
  | error e => rw [hp] at h; simp at h
  | ok b' =>
      rw [hp] at h
      replace h : crossValidate b' = .ok a := h
      unfold crossValidate at h
      by_cases hc : (b'.event_notification_type = some ( "GROUPS".data) ∧
          groupsEmptyAttr b'.event_notification_groups = true)
      · rw [if_pos hc] at h; exact absurd h (by simp)
      · rw [if_neg hc] at h
        exact h

theorem runGroups_of_inputEmpty {b : Bool} {v : Option JVal}
    (h : groupsInputEmpty v = true) :
    ∃ g, runGroupsField b v = .ok g ∧ groupsEmptyAttr g = true := by
  cases v with
  | none => exact ⟨none, rfl, rfl⟩
  | some w =>
      cases w with
      | null => exact ⟨some none, rfl, rfl⟩
      | s s =>
          refine ⟨some (some (pyStrip s)), rfl, ?_⟩
          simp only [groupsInputEmpty] at h
          simp [groupsEmptyAttr, h]
      | arr vs => simp [groupsInputEmpty] at h
      | other => simp [groupsInputEmpty] at h

/-- C1 (corrected): on the concrete create input d0 the validated
event_notification_type is GROUPS and the groups input is absent, yet
validation fails with only the email error: no Required error for
event_notification_groups is reported, because the cross-field validate
hook runs only when every field passed.  This refutes the claim that the
groups error is reported regardless of other fields being invalid. -/
theorem c1_counterexample :
    runSerializer false d0 =
      Except.error [(( "email".data), ( "Enter a valid email address.".data))] ∧
    runTypeField false d0.event_notification_type =
      Except.ok (some ( "GROUPS".data)) ∧
    groupsInputEmpty d0.event_notification_groups = true ∧
    ([(( "email".data), ( "Enter a valid email address.".data))].map Prod.fst).contains
      ( "event_notification_groups".data) = false :=
  ⟨rfl, rfl, rfl, by decide⟩

/-- C1 (amended): whenever the supplied event_notification_type is GROUPS
and the groups input is absent, null or blank, validation always fails;
and when additionally every supplied field passes its own validation, the
failure is exactly the Required error attached to
event_notification_groups. -/
theorem c1_groups_required (d : ReqData)
    (hty : d.event_notification_type = some (JVal.s ( "GROUPS".data)))
    (hgr : groupsInputEmpty d.event_notification_groups = true) :
    (∃ errs, runSerializer false d = Except.error errs) ∧
    (∀ a, perFieldPhase false d = Except.ok a →
      runSerializer false d = Except.error
        [(( "event_notification_groups".data),
          ( "This field is required when event_notification_type is GROUPS.".data))]) := by
  have key : ∀ a, perFieldPhase false d = Except.ok a →
      runSerializer false d = Except.error
        [(( "event_notification_groups".data),
          ( "This field is required when event_notification_type is GROUPS.".data))] := by
    intro a hp
    have hx := perFieldPhase_ok hp
    have hT : a.event_notification_type = some ( "GROUPS".data) := by
      have h7 := hx.2.2.2.2.2.2.1
      rw [hty] at h7
      have h7' : Except.ok (some ( "GROUPS".data)) =
          Except.ok (ε := PyStr) a.event_notification_type := h7
      injection h7' with hh
      exact hh.symm
    have hG : groupsEmptyAttr a.event_notification_groups = true := by
      obtain ⟨g, hg1, hg2⟩ := runGroups_of_inputEmpty (b := false) hgr
      have h6 := hx.2.2.2.2.2.1
      rw [hg1] at h6
      injection h6 with hh
      rw [← hh]
      exact hg2
    simp [runSerializer, hp, crossValidate, hT, hG]
  constructor
  · cases hp : perFieldPhase false d with
    | error e => exact ⟨e, by simp [runSerializer, hp]⟩
    | ok a => exact ⟨_, key a hp⟩
  · exact key

/-- C1 witness: the amended theorem applied to the concrete all-valid
GROUPS input with absent groups. -/
theorem c1_groups_required_witness :
    runSerializer false dW = Except.error
      [(( "event_notification_groups".data),
        ( "This field is required when event_notification_type is GROUPS.".data))] :=
  (c1_groups_required dW rfl rfl).2 (attrsOf false dW) rfl

/-- C2 (corrected): the stored record r0 has notification type GROUPS; the
partial update d1 supplies only an empty groups string, passes validation,
and the merged record that results has type GROUPS with an empty groups
value.  Under the claim, the cross-field rule evaluated on the merged
record would have rejected this update. -/
theorem c2_counterexample :
    runSerializer true d1 = Except.ok (attrsOf true d1) ∧
    r0.event_notification_type = ( "GROUPS".data) ∧
    (applyPatch r0 (attrsOf true d1)).event_notification_type = ( "GROUPS".data) ∧
    recGroupsEmpty (applyPatch r0 (attrsOf true d1)) = true :=
  ⟨rfl, rfl, rfl, rfl⟩

/-- C2 (amended): a partial update revalidates only the supplied fields
(absent fields are skipped by every field pipeline), and the cross-field
GROUPS rule is evaluated against the supplied validated attributes alone:
a partial update succeeds exactly when its fields validate individually
and the supplied attributes themselves do not combine GROUPS with an
empty groups value; the stored record is never consulted. -/
theorem c2_cross_on_supplied_only :
    (∀ (d : ReqData) (a : Attrs), runSerializer true d = Except.ok a ↔
      (perFieldPhase true d = Except.ok a ∧
       ¬(a.event_notification_type = some ( "GROUPS".data) ∧
         groupsEmptyAttr a.event_notification_groups = true))) ∧
    (runEmailField true none = Except.ok none ∧
     runFirstName true none = Except.ok none ∧
     runLastName true none = Except.ok none ∧
     runCountryCode true none = Except.ok none ∧
     runMobile true none = Except.ok none ∧
     runGroupsField true none = Except.ok none ∧
     runTypeField true none = Except.ok none ∧
     runEventTypesField true none = Except.ok none ∧
     runStatusField true none = Except.ok none) := by
  constructor
  · intro d a
    constructor
    · intro h
      have hp := runSerializer_ok h
      refine ⟨hp, ?_⟩
      intro hc
      have : runSerializer true d = Except.error
          [(( "event_notification_groups".data),
            ( "This field is required when event_notification_type is GROUPS.".data))] := by
        simp [runSerializer, hp, crossValidate, hc.1, hc.2]
      rw [h] at this
      exact absurd this (by simp)
    · rintro ⟨hp, hc⟩
      simp [runSerializer, hp, crossValidate, hc]
  · exact ⟨rfl, rfl, rfl, rfl, rfl, rfl, rfl, rfl, rfl⟩

/-- C2 witness: the characterization applied to the concrete partial
update that supplies only an empty groups value. -/
theorem c2_cross_on_supplied_only_witness :
    runSerializer true d1 = Except.ok (attrsOf true d1) :=
  (c2_cross_on_supplied_only.1 d1 (attrsOf true d1)).mpr ⟨rfl, by decide⟩

/-- C3: every create that passes validation received a string email and
stores it trimmed and lower-cased; and a supplied email whose trimmed
lower-cased form does not match the fixed pattern makes validation fail
with the invalid-email message attached to the email field. -/
theorem c3_email_normalization :
    (∀ (d : ReqData) (a : Attrs), runSerializer false d = Except.ok a →
      ∃ s, d.email = some (JVal.s s) ∧ a.email = some (pyLower (pyStrip s))) ∧
    (∀ (d : ReqData) (s : PyStr), d.email = some (JVal.s s) → pyStrip s ≠ [] →
      emailMatches (pyLower (pyStrip s)) = false →
      ∃ errs, runSerializer false d = Except.error errs ∧
        (( "email".data), ( "Enter a valid email address.".data)) ∈ errs) := by
  constructor
  · intro d a h
    have hp := runSerializer_ok h
    have hE := (perFieldPhase_ok hp).1
    cases hde : d.email with
    | none => rw [hde] at hE; simp [runEmailField] at hE
    | some w =>
        cases w with
        | null => rw [hde] at hE; simp [runEmailField] at hE
        | arr vs => rw [hde] at hE; simp [runEmailField] at hE
        | other => rw [hde] at hE; simp [runEmailField] at hE
        | s s =>
            refine ⟨s, rfl, ?_⟩
            rw [hde] at hE
            by_cases hb : pyStrip s = []
            · simp [runEmailField, hb] at hE
            · have hv : validate_email (pyStrip s) =
                  if emailMatches (pyLower (pyStrip s)) then
                    Except.ok (pyLower (pyStrip s))
                  else Except.error ( "Enter a valid email address.".data) := by
                unfold validate_email
                rw [pyStrip_idem, if_neg hb]
              simp only [runEmailField, if_neg hb] at hE
              rw [hv] at hE
              by_cases hm : emailMatches (pyLower (pyStrip s)) = true
              · rw [if_pos hm] at hE
                replace hE : Except.ok (ε := PyStr)
                    (some (pyLower (pyStrip s))) = Except.ok a.email := hE
                injection hE with hh
                exact hh.symm
              · rw [Bool.not_eq_true] at hm
                rw [if_neg (by simp [hm])] at hE
                exact absurd hE (by simp [Except.map])
  · intro d s hde hnb hnm
    have hrun : runEmailField false d.email =
        Except.error ( "Enter a valid email address.".data) := by
      rw [hde]
      have hv : validate_email (pyStrip s) =
          Except.error ( "Enter a valid email address.".data) := by
        unfold validate_email
        rw [pyStrip_idem, if_neg hnb, if_neg (by simp [hnm])]
      simp [runEmailField, hnb, hv, Except.map]
    refine ⟨fieldErrsOf false d, ?_, ?_⟩
    · have hne : (fieldErrsOf false d).isEmpty = false := by
        unfold fieldErrsOf
        rw [hrun]
        rfl
      simp [runSerializer, perFieldPhase, hne]
    · unfold fieldErrsOf
      rw [hrun]
      simp [fieldRes]

/-- C3 witness: the theorem applied to a concrete valid create (showing the
stored email is the trimmed lower-cased input) and to a concrete create
with an invalid email (showing the email-field error). -/
theorem c3_email_normalization_witness :
    (∃ s, dN.email = some (JVal.s s) ∧
      (attrsOf false dN).email = some (pyLower (pyStrip s))) ∧
    (∃ errs, runSerializer false dE = Except.error errs ∧
      (( "email".data), ( "Enter a valid email address.".data)) ∈ errs) :=
  ⟨c3_email_normalization.1 dN (attrsOf false dN) rfl,
   c3_email_normalization.2 dE ( "not-an-email".data) rfl (by decide) (by decide)⟩

theorem validateEventItems_spec : ∀ xs : List JVal,
    (xs.all goodItem = true → validateEventItems xs = .ok (xs.map stripOfItem)) ∧
    (xs.all goodItem = false → ∃ e, validateEventItems xs = .error e) := by
  intro xs
  induction xs with
  | nil => exact ⟨fun _ => rfl, fun h => by simp at h⟩
  | cons x rest ih =>
      constructor
      · intro h
        simp only [List.all_cons, Bool.and_eq_true] at h
        obtain ⟨hx, hrest⟩ := h
        cases x with
        | s v =>
            simp only [goodItem, Bool.and_eq_true, List.isEmpty_eq_false_iff_exists_mem,
              decide_eq_true_eq] at hx
            have h1 : ¬ pyStrip v = [] := by
              rcases hx with ⟨hne, _⟩
              intro hc
              rw [hc] at hne
              simp at hne
            have h2 : ¬ (pyStrip v).length > 50 := by
              rcases hx with ⟨_, hle⟩
              omega
            simp only [validateEventItems, if_neg h1, if_neg h2]
            rw [ih.1 hrest]
            rfl
        | null => simp [goodItem] at hx
        | arr vs => simp [goodItem] at hx
        | other => simp [goodItem] at hx
      · intro h
        simp only [List.all_cons, Bool.and_eq_false_iff] at h
        cases x with
        | s v =>
            by_cases h1 : pyStrip v = []
            · refine ⟨( "Event types cannot be empty strings.".data), ?_⟩
              simp [validateEventItems, h1]
            · by_cases h2 : (pyStrip v).length > 50
              · refine ⟨( "Each event type cannot exceed 50 characters.".data), ?_⟩
                simp [validateEventItems, h1, h2]
              · have hx : goodItem (JVal.s v) = true := by
                  simp only [goodItem, Bool.and_eq_true, decide_eq_true_eq]
                  constructor
                  · cases hps : pyStrip v with
                    | nil => exact absurd hps h1
                    | cons a t => rfl
                  · omega
                have hrest : rest.all goodItem = false := by
                  rcases h with h | h
                  · rw [hx] at h; simp at h
                  · exact h
                obtain ⟨e, he⟩ := ih.2 hrest
                refine ⟨e, ?_⟩
                simp only [validateEventItems, if_neg h1, if_neg h2]
                rw [he]
                rfl
        | null => exact ⟨( "Each event type must be a string.".data), rfl⟩
        | arr vs => exact ⟨( "Each event type must be a string.".data), rfl⟩
        | other => exact ⟨( "Each event type must be a string.".data), rfl⟩

theorem mem_dedupAux : ∀ (ts : List PyStr) (seen : List PyStr) (x : PyStr),
    x ∈ dedupAux seen ts ↔ (x ∈ ts ∧ x ∉ seen) := by
  intro ts
  induction ts with
  | nil => intro seen x; simp [dedupAux]
  | cons t rest ih =>
      intro seen x
      by_cases h : t ∈ seen
      · rw [dedupAux, if_pos h, ih]
        constructor
        · rintro ⟨hm, hn⟩
          exact ⟨List.mem_cons_of_mem _ hm, hn⟩
        · rintro ⟨hm, hn⟩
          rcases List.mem_cons.mp hm with h1 | h1
          · rw [h1] at hn; exact absurd h hn
          · exact ⟨h1, hn⟩
      · rw [dedupAux, if_neg h]
        constructor
        · intro hm
          rcases List.mem_cons.mp hm with h1 | h1
          · rw [h1]; exact ⟨List.mem_cons_self _ _, h⟩
          · rcases (ih _ _).mp h1 with ⟨hmr, hns⟩
            refine ⟨List.mem_cons_of_mem _ hmr, ?_⟩
            intro hc
            exact hns (List.mem_cons_of_mem _ hc)
        · rintro ⟨hm, hn⟩
          rcases List.mem_cons.mp hm with h1 | h1
          · rw [h1]; exact List.mem_cons_self _ _
          · by_cases hxt : x = t
            · rw [hxt]; exact List.mem_cons_self _ _
            · refine List.mem_cons_of_mem _ ((ih _ _).mpr ⟨h1, ?_⟩)
              intro hc
              rcases List.mem_cons.mp hc with h2 | h2
              · exact hxt h2
              · exact hn h2

theorem sublist_dedupAux : ∀ (ts seen : List PyStr), (dedupAux seen ts).Sublist ts := by
  intro ts
  induction ts with
  | nil => intro seen; simp [dedupAux]
  | cons t rest ih =>
      intro seen
      by_cases h : t ∈ seen
      · rw [dedupAux, if_pos h]
        exact List.Sublist.cons _ (ih seen)
      · rw [dedupAux, if_neg h]
        exact List.Sublist.cons₂ _ (ih (t :: seen))

theorem nodup_dedupAux : ∀ (ts seen : List PyStr), (dedupAux seen ts).Nodup := by
  intro ts
  induction ts with
  | nil => intro seen; simp [dedupAux]
  | cons t rest ih =>
      intro seen
      by_cases h : t ∈ seen
      · rw [dedupAux, if_pos h]; exact ih seen
      · rw [dedupAux, if_neg h]
        refine List.nodup_cons.mpr ⟨?_, ih (t :: seen)⟩
        intro hc
        rcases (mem_dedupAux _ _ _).mp hc with ⟨_, hns⟩
        exact hns (List.mem_cons_self _ _)

/-- C4: an event_types input validates successfully exactly when it is a
non-empty list of at most twenty strings, each one non-empty and at most
fifty characters after trimming; and the successful output is the list of
trimmed items with duplicates removed keeping the first occurrence (a
duplicate-free sublist of the trimmed items with the same members). -/
theorem c4_event_types :
    (∀ v : JVal, (∃ out, validate_event_types v = Except.ok out) ↔
      goodEventTypes v = true) ∧
    (∀ (v : JVal) (out : List PyStr), validate_event_types v = Except.ok out →
      ∃ xs, v = JVal.arr xs ∧ out = dedupAux [] (xs.map stripOfItem) ∧
        out.Sublist (xs.map stripOfItem) ∧ out.Nodup ∧
        (∀ t, t ∈ out ↔ t ∈ xs.map stripOfItem)) := by
  have main : ∀ (xs : List JVal) (out : List PyStr),
      validate_event_types (JVal.arr xs) = Except.ok out →
      out = dedupAux [] (xs.map stripOfItem) := by
    intro xs out h
    replace h : (if xs.isEmpty then
        Except.error (ε := PyStr) ( "At least one event type is required.".data)
      else if xs.length > 20 then
        Except.error ( "Cannot specify more than 20 event types.".data)
      else (validateEventItems xs).map (dedupAux [])) = Except.ok out := h
    by_cases h0 : xs.isEmpty
    · rw [if_pos h0] at h; exact absurd h (by simp)
    · rw [if_neg h0] at h
      by_cases h20 : xs.length > 20
      · rw [if_pos h20] at h; exact absurd h (by simp)
      · rw [if_neg h20] at h
        cases hvi : validateEventItems xs with
        | error e => rw [hvi] at h; exact absurd h (by simp [Except.map])
        | ok ts =>
            rw [hvi] at h
            replace h : Except.ok (ε := PyStr) (dedupAux [] ts) = Except.ok out := h
            injection h with hh
            have hall : xs.all goodItem = true := by
              by_contra hc
              rw [Bool.not_eq_true] at hc
              obtain ⟨e, he⟩ := (validateEventItems_spec xs).2 hc
              rw [he] at hvi
              exact absurd hvi (by simp)
            have hts : ts = xs.map stripOfItem := by
              have hsp := (validateEventItems_spec xs).1 hall
              rw [hvi] at hsp
              injection hsp
            rw [← hh, hts]
  constructor
  · intro v
    cases v with
    | arr xs =>
        have hev : validate_event_types (JVal.arr xs) = (if xs.isEmpty then
            Except.error (ε := PyStr) ( "At least one event type is required.".data)
          else if xs.length > 20 then
            Except.error ( "Cannot specify more than 20 event types.".data)
          else (validateEventItems xs).map (dedupAux [])) := rfl
        rw [hev]
        by_cases h0 : xs.isEmpty
        · simp [goodEventTypes, h0]
        · by_cases h20 : xs.length > 20
          · simp [goodEventTypes, h0, h20]
          · rw [if_neg h0, if_neg h20]
            cases hvi : validateEventItems xs with
            | error e =>
                have hall : xs.all goodItem = false := by
                  by_contra hc
                  rw [Bool.not_eq_false] at hc
                  have := (validateEventItems_spec xs).1 hc
                  rw [hvi] at this
                  exact absurd this (by simp)
                simp [goodEventTypes, h0, hall, Except.map]
            | ok ts =>
                have hall : xs.all goodItem = true := by
                  by_contra hc
                  rw [Bool.not_eq_true] at hc
                  obtain ⟨e, he⟩ := (validateEventItems_spec xs).2 hc
                  rw [he] at hvi
                  exact absurd hvi (by simp)
                simp [goodEventTypes, h0, hall, Except.map]
                omega
    | null => simp [validate_event_types, goodEventTypes]
    | s v => simp [validate_event_types, goodEventTypes]
    | other => simp [validate_event_types, goodEventTypes]
  · intro v out h
    cases v with
    | arr xs =>
        refine ⟨xs, rfl, main xs out h, ?_, ?_, ?_⟩
        · rw [main xs out h]; exact sublist_dedupAux _ _
        · rw [main xs out h]; exact nodup_dedupAux _ _
        · intro t
          rw [main xs out h, mem_dedupAux]
          simp
    | null => exact absurd h (by simp [validate_event_types])
    | s v => exact absurd h (by simp [validate_event_types])
    | other => exact absurd h (by simp [validate_event_types])

/-- C4 witness: the output characterization applied to a concrete input
with surrounding whitespace and a duplicate. -/
theorem c4_event_types_witness :
    ∃ xs, JVal.arr [JVal.s ( " A ".data), JVal.s ( "B".data), JVal.s ( "A".data)] =
        JVal.arr xs ∧
      [( "A".data), ( "B".data)] = dedupAux [] (xs.map stripOfItem) ∧
      List.Sublist [( "A".data), ( "B".data)] (xs.map stripOfItem) ∧
      List.Nodup [( "A".data), ( "B".data)] ∧
      (∀ t, t ∈ [( "A".data), ( "B".data)] ↔ t ∈ xs.map stripOfItem) :=
  c4_event_types.2
    (JVal.arr [JVal.s ( " A ".data), JVal.s ( "B".data), JVal.s ( "A".data)])
    [( "A".data), ( "B".data)] rfl

/-- C5 (corrected): the name validators accept the tab character, which is
outside the character set the claim states (ASCII letters, space, hyphen,
apostrophe), because the source pattern uses the regex whitespace class:
a first name containing an interior tab passes validation unchanged. -/
theorem c5_counterexample :
    validate_first_name ( "A\tB".data) = Except.ok ( "A\tB".data) ∧
    validate_last_name ( "A\tB".data) = Except.ok ( "A\tB".data) ∧
    (Char.ofNat 9) ∈ ( "A\tB".data) ∧
    spec_nameChar (Char.ofNat 9) = false :=
  ⟨rfl, rfl, by decide, by decide⟩

/-- C5 (amended): validate_first_name and validate_last_name fail exactly
when the value is empty after trimming or contains a character outside
letters, whitespace, hyphen and apostrophe (the regex whitespace class, so
interior tabs and newlines are also accepted); on success the stored value
is the trimmed input. -/
theorem c5_names_amended :
    (∀ v : PyStr, (∃ e, validate_first_name v = Except.error e) ↔
      (pyStrip v = [] ∨ (pyStrip v).all nameChar = false)) ∧
    (∀ v t, validate_first_name v = Except.ok t → t = pyStrip v) ∧
    (∀ v : PyStr, (∃ e, validate_last_name v = Except.error e) ↔
      (pyStrip v = [] ∨ (pyStrip v).all nameChar = false)) ∧
    (∀ v t, validate_last_name v = Except.ok t → t = pyStrip v) := by
  refine ⟨fun v => ?_, fun v t h => ?_, fun v => ?_, fun v t h => ?_⟩
  · unfold validate_first_name
    by_cases h1 : pyStrip v = []
    · simp [h1]
    · by_cases h2 : (pyStrip v).all nameChar
      · simp [h1, h2]
      · simp [h1, h2]
  · unfold validate_first_name at h
    by_cases h1 : pyStrip v = []
    · rw [if_pos h1] at h; exact absurd h (by simp)
    · rw [if_neg h1] at h
      by_cases h2 : (pyStrip v).all nameChar
      · rw [if_pos h2] at h; injection h with hh; exact hh.symm
      · rw [if_neg h2] at h; exact absurd h (by simp)
  · unfold validate_last_name
    by_cases h1 : pyStrip v = []
    · simp [h1]
    · by_cases h2 : (pyStrip v).all nameChar
      · simp [h1, h2]
      · simp [h1, h2]
  · unfold validate_last_name at h
    by_cases h1 : pyStrip v = []
    · rw [if_pos h1] at h; exact absurd h (by simp)
    · rw [if_neg h1] at h
      by_cases h2 : (pyStrip v).all nameChar
      · rw [if_pos h2] at h; injection h with hh; exact hh.symm
      · rw [if_neg h2] at h; exact absurd h (by simp)

/-- C5 witness: the amended theorem applied to concrete names with
surrounding whitespace. -/
theorem c5_names_amended_witness :
    (( "Jo-Ann".data) = pyStrip ( " Jo-Ann ".data)) ∧
    (( "Roe".data) = pyStrip ( " Roe ".data)) :=
  ⟨c5_names_amended.2.1 ( " Jo-Ann ".data) ( "Jo-Ann".data) rfl,
   c5_names_amended.2.2.2 ( " Roe ".data) ( "Roe".data) rfl⟩

/-- C6 (corrected): the mobile validator removes the regex whitespace
class, not only the space character: a number with an interior tab is
accepted, while under the claim the tab would survive the removal and make
the input fail the all-digits check. -/
theorem c6_counterexample :
    validate_mobile_number ( "12\t34567890".data) =
      Except.ok ( "12\t34567890".data) ∧
    pyIsDigitStr (( "12\t34567890".data).filter (fun c => !spec_mobileStripChar c)) = false :=
  ⟨rfl, by decide⟩

/-- C6 (amended): empty or whitespace-only input is valid and normalizes
to the empty string; for non-empty input, after removing whitespace,
hyphens, parentheses and plus signs the remainder must be a nonempty run
of digits of length 10 to 15, else validation fails (the concrete input
123 failing with the length message); on success the stored value is the
trimmed input. -/
theorem c6_mobile_amended :
    (∀ v : PyStr, pyStrip v = [] → validate_mobile_number v = Except.ok []) ∧
    (∀ v : PyStr, pyStrip v ≠ [] →
      ((∃ r, validate_mobile_number v = Except.ok r) ↔
        (pyIsDigitStr ((pyStrip v).filter (fun c => !mobileStripChar c)) = true ∧
         10 ≤ ((pyStrip v).filter (fun c => !mobileStripChar c)).length ∧
         ((pyStrip v).filter (fun c => !mobileStripChar c)).length ≤ 15))) ∧
    (∀ v r, validate_mobile_number v = Except.ok r → r = pyStrip v) ∧
    validate_mobile_number ( "123".data) =
      Except.error ( "Mobile number must contain between 10 and 15 digits.".data) := by
  refine ⟨fun v h => ?_, fun v hnb => ?_, fun v r h => ?_, rfl⟩
  · unfold validate_mobile_number
    rw [if_pos h]
  · unfold validate_mobile_number
    rw [if_neg hnb]
    by_cases hd : pyIsDigitStr ((pyStrip v).filter (fun c => !mobileStripChar c)) = true
    · by_cases hlen : ((pyStrip v).filter (fun c => !mobileStripChar c)).length < 10 ∨
          ((pyStrip v).filter (fun c => !mobileStripChar c)).length > 15
      · rw [if_neg (by simp [hd]), if_pos (by
          rcases hlen with h | h <;> simp [h])]
        constructor
        · rintro ⟨r, hr⟩; exact absurd hr (by simp)
        · rintro ⟨_, h10, h15⟩; omega
      · rw [if_neg (by simp [hd]), if_neg (by
          push_neg at hlen
          simp only [Bool.or_eq_true, decide_eq_true_eq]
          omega)]
        constructor
        · intro _
          refine ⟨hd, ?_, ?_⟩ <;> omega
        · intro _
          exact ⟨pyStrip v, rfl⟩
    · rw [if_pos (by simp [Bool.not_eq_true] at hd; simp [hd])]
      constructor
      · rintro ⟨r, hr⟩; exact absurd hr (by simp)
      · rintro ⟨hd2, _⟩; exact absurd hd2 hd
  · unfold validate_mobile_number at h
    by_cases h1 : pyStrip v = []
    · rw [if_pos h1] at h
      injection h with hh
      rw [← hh, h1]
    · rw [if_neg h1] at h
      by_cases hd : !pyIsDigitStr ((pyStrip v).filter (fun c => !mobileStripChar c))
      · rw [if_pos hd] at h; exact absurd h (by simp)
      · rw [if_neg hd] at h
        by_cases hlen : ((pyStrip v).filter (fun c => !mobileStripChar c)).length < 10 ||
            ((pyStrip v).filter (fun c => !mobileStripChar c)).length > 15
        · rw [if_pos hlen] at h; exact absurd h (by simp)
        · rw [if_neg hlen] at h
          injection h with hh
          exact hh.symm

/-- C6 witness: the amended theorem applied to whitespace input, to a
concrete valid number, and its success characterization at that number. -/
theorem c6_mobile_amended_witness :
    validate_mobile_number ( "  ".data) = Except.ok [] ∧
    ( "98-7654 3210".data) = pyStrip ( " 98-7654 3210 ".data) :=
  ⟨c6_mobile_amended.1 ( "  ".data) rfl,
   c6_mobile_amended.2.2.1 ( " 98-7654 3210 ".data) ( "98-7654 3210".data) rfl⟩

theorem listStartsWith_nil : ∀ l : PyStr, listStartsWith l [] = true := by
  intro l
  cases l <;> rfl

theorem listStartsWith_append : ∀ b c : PyStr, listStartsWith (b ++ c) b = true := by
  intro b
  induction b with
  | nil => intro c; exact listStartsWith_nil c
  | cons x bs ih =>
      intro c
      simp [listStartsWith, ih]

theorem containsSub_append : ∀ a b c : PyStr, containsSub (a ++ (b ++ c)) b = true := by
  intro a
  induction a with
  | nil =>
      intro b c
      rw [containsSub.eq_def]
      simp [listStartsWith_append]
  | cons x as ih =>
      intro b c
      rw [List.cons_append, containsSub.eq_def]
      by_cases h : listStartsWith (x :: (as ++ (b ++ c))) b
      · rw [if_pos h]
      · rw [if_neg h]
        exact ih b c

theorem lookup_filter_ne : ∀ (store : List (Nat × ContactRec)) (pk : Nat),
    lookupContact (store.filter (fun e => e.1 != pk)) pk = none := by
  intro store pk
  induction store with
  | nil => rfl
  | cons e rest ih =>
      obtain ⟨i, r⟩ := e
      by_cases h : i = pk
      · rw [List.filter_cons]
        simp only [h, bne_self_eq_false]
        exact ih
      · rw [List.filter_cons]
        have hb : ((i, r).1 != pk) = true := by
          simp [bne, h]
        rw [if_pos hb]
        rw [lookupContact, if_neg h]
        exact ih

/-- C7: deleting an id absent from the store answers NotFound with the
message naming the id (whose decimal digits occur in the message); deleting
a present id answers the success message and removes the row, so a second
delete of the same id answers NotFound. -/
theorem c7_delete :
    (∀ (store : List (Nat × ContactRec)) (pk : Nat),
      lookupContact store pk = none →
      destroyContact store pk = (DestroyResult.notFound (notFoundMsg pk), store)) ∧
    (∀ (store : List (Nat × ContactRec)) (pk : Nat) (r : ContactRec),
      lookupContact store pk = some r →
      (destroyContact store pk).1 =
        DestroyResult.ok ( "Contact deleted successfully.".data) ∧
      (destroyContact (destroyContact store pk).2 pk).1 =
        DestroyResult.notFound (notFoundMsg pk)) ∧
    (∀ pk, containsSub (notFoundMsg pk) (natDigits pk) = true) := by
  refine ⟨fun store pk h => ?_, fun store pk r h => ?_, fun pk => ?_⟩
  · unfold destroyContact
    rw [h]
  · unfold destroyContact
    rw [h]
    refine ⟨rfl, ?_⟩
    rw [lookup_filter_ne]
  · unfold notFoundMsg
    rw [List.append_assoc]
    exact containsSub_append _ _ _

/-- C7 witness: the theorem applied to the empty store and to a singleton
store with two consecutive deletes of the same id. -/
theorem c7_delete_witness :
    destroyContact [] 5 = (DestroyResult.notFound (notFoundMsg 5), []) ∧
    (destroyContact [(1, sampleRec)] 1).1 =
      DestroyResult.ok ( "Contact deleted successfully.".data) ∧
    (destroyContact (destroyContact [(1, sampleRec)] 1).2 1).1 =
      DestroyResult.notFound (notFoundMsg 1) ∧
    containsSub (notFoundMsg 17) (natDigits 17) = true :=
  ⟨c7_delete.1 [] 5 rfl,
   (c7_delete.2.1 [(1, sampleRec)] 1 sampleRec rfl).1,
   (c7_delete.2.1 [(1, sampleRec)] 1 sampleRec rfl).2,
   c7_delete.2.2 17⟩

/-- C8 (code bug): the IntegrityError branch of custom_exception_handler
builds an envelope with code integrity_error, and the Django
ValidationError branch one with code validation_error, but the final
reformatting block rebuilds the envelope from the response data and
replaces the code by the one derived from the status code, so a uniqueness
violation is delivered with code bad_request (and without the details
key), contradicting the documented code assignment. -/
theorem c8_integrity_code_overwritten :
    custom_exception_handler
      (Exc.integrity ( "UNIQUE constraint failed: contacts_contact.email".data)) =
      some { message := MsgVal.s ( "A contact with this email address already exists.".data)
             code := ( "bad_request".data)
             statusCode := 400
             details := none
             detail := MsgVal.s ( "A contact with this email address already exists.".data) } ∧
    custom_exception_handler (Exc.djangoValidation [( "Invalid value.".data)]) =
      some { message := MsgVal.lst [( "Invalid value.".data)]
             code := ( "bad_request".data)
             statusCode := 400
             details := none
             detail := MsgVal.lst [( "Invalid value.".data)] } ∧
    custom_exception_handler (Exc.apiResp 404
        (RData.detailDict ( "Contact with id 9 does not exist.".data))) =
      some { message := MsgVal.s ( "Contact with id 9 does not exist.".data)
             code := ( "not_found".data)
             statusCode := 404
             details := none
             detail := MsgVal.s ( "Contact with id 9 does not exist.".data) } ∧
    (( "bad_request".data) == ( "integrity_error".data)) = false ∧
    (( "bad_request".data) == ( "validation_error".data)) = false :=
  ⟨rfl, rfl, rfl, by decide, by decide⟩

theorem getPageSize_pos : ∀ p : Option PyStr, 1 ≤ getPageSize p := by
  intro p
  cases p with
  | none => decide
  | some s =>
      show 1 ≤ (positiveIntStrictCutoff s 100).getD 10
      cases h : positiveIntStrictCutoff s 100 with
      | none => simp
      | some k =>
          simp only [Option.getD_some]
          unfold positiveIntStrictCutoff at h
          split at h
          · exact absurd h (by simp)
          · split at h
            · exact absurd h (by simp)
            · injection h with hh
              omega

theorem numPages_pos : ∀ c s : Nat, 1 ≤ s → 1 ≤ numPages c s := by
  intro c s hs
  unfold numPages
  by_cases hc : c = 0
  · simp [hc]
  · rw [if_neg hc]
    rw [Nat.one_le_div_iff (by omega)]
    omega

theorem pageNumberOf_bounds : ∀ (pp : Option PyStr) (np p : Nat), 1 ≤ np →
    pageNumberOf pp np = some p → 1 ≤ p ∧ p ≤ np := by
  intro pp np p hnp h
  unfold pageNumberOf at h
  split at h
  · injection h with hh; omega
  · split at h
    · injection h with hh; omega
    · split at h
      · exact absurd h (by simp)
      · split at h
        · exact absurd h (by simp)
        · split at h
          · exact absurd h (by simp)
          · injection h with hh
            omega

/-- C9: the page size defaults to 10 and a parsable positive page_size
parameter is honored capped at 100 (it governs the returned slice and the
page count, while the page_size key of the response body reports the
constant class attribute); the page number defaults to 1; and every
successful paginated response carries the total count, the total number of
pages, the current page, and next and previous page references that are
absent exactly at the last and first page. -/
theorem c9_pagination :
    getPageSize none = 10 ∧
    (∀ (s : PyStr) (n : Int), pyParseInt s = some n → 1 ≤ n →
      getPageSize (some s) = min n.toNat 100) ∧
    (∀ (rs : List Nat) (szP : Option PyStr) (m : PageMeta Nat),
      paginateList rs none szP = some m → m.page = 1) ∧
    (∀ (rs : List Nat) (pP szP : Option PyStr) (m : PageMeta Nat),
      paginateList rs pP szP = some m →
      m.count = rs.length ∧
      m.page_size = 10 ∧
      m.total_pages = numPages rs.length (getPageSize szP) ∧
      m.results = (rs.drop ((m.page - 1) * getPageSize szP)).take (getPageSize szP) ∧
      (m.next = none ↔ m.page = m.total_pages) ∧
      (m.previous = none ↔ m.page = 1)) := by
  have hmeta : ∀ (rs : List Nat) (pP szP : Option PyStr) (m : PageMeta Nat),
      paginateList rs pP szP = some m →
      ∃ p, pageNumberOf pP (numPages rs.length (getPageSize szP)) = some p ∧
        m = { count := rs.length
              next := if p < numPages rs.length (getPageSize szP) then some (p + 1) else none
              previous := if 1 < p then some (p - 1) else none
              results := (rs.drop ((p - 1) * getPageSize szP)).take (getPageSize szP)
              page := p
              total_pages := numPages rs.length (getPageSize szP)
              page_size := 10 } := by
    intro rs pP szP m h
    unfold paginateList at h
    split at h
    · exact absurd h (by simp)
    · rename_i p heq
      injection h with hh
      exact ⟨p, heq, hh.symm⟩
  refine ⟨rfl, fun s n hp hn => ?_, fun rs szP m h => ?_, fun rs pP szP m h => ?_⟩
  · show (positiveIntStrictCutoff s 100).getD 10 = min n.toNat 100
    unfold positiveIntStrictCutoff
    simp only [hp]
    rw [if_neg (by omega)]
    rfl
  · obtain ⟨p, hpn, hm⟩ := hmeta rs none szP m h
    unfold pageNumberOf at hpn
    injection hpn with hh
    rw [hm, ← hh]
  · obtain ⟨p, hpn, hm⟩ := hmeta rs pP szP m h
    have hnp := numPages_pos rs.length (getPageSize szP) (getPageSize_pos szP)
    obtain ⟨hp1, hp2⟩ := pageNumberOf_bounds pP _ p hnp hpn
    rw [hm]
    refine ⟨rfl, rfl, rfl, rfl, ?_, ?_⟩
    · show (if p < numPages rs.length (getPageSize szP) then some (p + 1) else none) = none ↔
        p = numPages rs.length (getPageSize szP)
      by_cases hlt : p < numPages rs.length (getPageSize szP)
      · rw [if_pos hlt]
        constructor
        · intro hc; exact absurd hc (by simp)
        · intro hc; exfalso; omega
      · rw [if_neg hlt]
        constructor
        · intro _; omega
        · intro _; rfl
    · show (if 1 < p then some (p - 1) else none) = none ↔ p = 1
      by_cases hgt : 1 < p
      · rw [if_pos hgt]
        constructor
        · intro hc; exact absurd hc (by simp)
        · intro hc; exfalso; omega
      · rw [if_neg hgt]
        constructor
        · intro _; omega
        · intro _; rfl

/-- C9 witness: the theorem applied to a concrete capped page size and to
the second page of three records at page size two, and to the default
page. -/
theorem c9_pagination_witness :
    getPageSize (some ( "250".data)) = min (Int.toNat 250) 100 ∧
    m9b.page = 1 ∧
    (m9.count = ([0, 1, 2] : List Nat).length ∧
     m9.page_size = 10 ∧
     m9.total_pages = numPages ([0, 1, 2] : List Nat).length (getPageSize (some ( "2".data))) ∧
     m9.results = (([0, 1, 2] : List Nat).drop
       ((m9.page - 1) * getPageSize (some ( "2".data)))).take (getPageSize (some ( "2".data))) ∧
     (m9.next = none ↔ m9.page = m9.total_pages) ∧
     (m9.previous = none ↔ m9.page = 1)) :=
  ⟨c9_pagination.2.1 ( "250".data) 250 rfl (by decide),
   c9_pagination.2.2.1 [0, 1, 2] none m9b rfl,
   c9_pagination.2.2.2 [0, 1, 2] (some ( "2".data)) (some ( "2".data)) m9 rfl⟩

/-- C10: validate_status and validate_event_notification_type accept a
value only when it exactly equals one of the upper-case enum constants, so
the lower-case spellings are rejected with the invalid-choice message; the
list-endpoint filters instead upper-case the query parameter before
comparison, so the lower-case parameters select the upper-case values. -/
theorem c10_case_sensitivity :
    (∀ v : PyStr, validate_status v = Except.ok v ↔
      (v = ( "ACTIVE".data) ∨ v = ( "INACTIVE".data))) ∧
    validate_status ( "active".data) =
      Except.error ( "Status must be one of: ACTIVE, INACTIVE".data) ∧
    (∀ v : PyStr, validate_event_notification_type v = Except.ok v ↔
      (v = ( "ALL_USERS".data) ∨ v = ( "GROUPS".data))) ∧
    validate_event_notification_type ( "groups".data) =
      Except.error ( "Event notification type must be one of: ALL_USERS, GROUPS".data) ∧
    (∀ rs : List ContactRec, filterByStatus (some ( "active".data)) rs =
      rs.filter (fun r => decide (r.status = ( "ACTIVE".data)))) ∧
    (∀ rs : List ContactRec, filterByType (some ( "groups".data)) rs =
      rs.filter (fun r => decide (r.event_notification_type = ( "GROUPS".data)))) := by
  refine ⟨fun v => ?_, rfl, fun v => ?_, rfl, fun rs => rfl, fun rs => rfl⟩
  · unfold validate_status
    by_cases h : v ∈ statusChoices
    · rw [if_pos h]
      simp only [statusChoices, List.mem_cons, List.mem_singleton] at h
      simpa using h
    · rw [if_neg h]
      simp only [statusChoices, List.mem_cons, List.mem_singleton] at h
      constructor
      · intro hc; exact absurd hc (by simp)
      · intro hc
        simp at h
        rcases hc with hc | hc <;> rw [hc] at h <;> simp at h
  · unfold validate_event_notification_type
    by_cases h : v ∈ typeChoices
    · rw [if_pos h]
      simp only [typeChoices, List.mem_cons, List.mem_singleton] at h
      simpa using h
    · rw [if_neg h]
      simp only [typeChoices, List.mem_cons, List.mem_singleton] at h
      constructor
      · intro hc; exact absurd hc (by simp)
      · intro hc
        simp at h
        rcases hc with hc | hc <;> rw [hc] at h <;> simp at h

/-- C10 witness: exact upper-case values are accepted. -/
theorem c10_case_sensitivity_witness :
    validate_status ( "ACTIVE".data) = Except.ok ( "ACTIVE".data) ∧
    validate_event_notification_type ( "GROUPS".data) = Except.ok ( "GROUPS".data) :=
  ⟨(c10_case_sensitivity.1 ( "ACTIVE".data)).mpr (Or.inl rfl),
   (c10_case_sensitivity.2.2.1 ( "GROUPS".data)).mpr (Or.inr rfl)⟩
